import Mathlib

set_option maxHeartbeats 1000000

/- Verification development for the xshell-venv library (src/lib.rs, src/error.rs).
   Rust code is shallowly embedded: filesystem paths become an absolute-flag plus a
   component list, the process world (filesystem, probe results, command outcomes)
   becomes an explicit oracle structure, and each Rust function becomes a Lean
   function from that oracle to a trace of observable events plus an outcome. -/

/-- Filesystem path model: a Rust PathBuf as an absolute-flag plus component list. -/
structure RPath where
  absolute : Bool
  components : List String
deriving DecidableEq, BEq, Repr

/-- Path::join with a single relative component, as used throughout src/lib.rs. -/
def RPath.join (p : RPath) (c : String) : RPath :=
  ⟨p.absolute, p.components ++ [c]⟩

/-- Path::parent: none for an empty path, otherwise drop the last component. -/
def RPath.parent (p : RPath) : Option RPath :=
  match p.components with
  | [] => none
  | _ => some ⟨p.absolute, p.components.dropLast⟩

/-- Path display, as produced by the Rust Display implementation. -/
def RPath.display (p : RPath) : String :=
  (if p.absolute then "/" else "") ++ String.intercalate "/" p.components

/-- PathBuf::from on an environment-variable string. -/
def pathFromString (s : String) : RPath :=
  ⟨s.toList.head? == some '/', (s.splitOn "/").filter (fun c => c ≠ "")⟩

/-- Substring containment, modelling str::contains in guess_python. -/
def strContains (s pat : String) : Bool :=
  (List.range (s.length + 1)).any (fun i => List.isPrefixOf pat.toList (s.toList.drop i))

/-- The error type from src/error.rs. The wrapped xshell::Error is modelled by its
display text, which is all the library ever reads from it. -/
inductive Error where
  | PythonNotDetected (s : String)
  | Xshell (e : String)
deriving DecidableEq, BEq, Repr

/-- The Display implementation from src/error.rs: both variants print their payload. -/
def Error.display : Error → String
  | Error.PythonNotDetected s => s
  | Error.Xshell e => e

/-- The literal message of the guess_python failure in src/lib.rs line 96. -/
def pyNotFoundMsg : String := "couldn\x27t find Python 3 in $PATH"

/-- Outcomes of the probe commands guess_python runs: whether each probe command
succeeds, and the captured output of the read-based probes (none = the command
failed to run). -/
structure ProbeWorld where
  python3ExeRunOk : Bool
  pythonExeRead : Option String
  python3RunOk : Bool
  pythonRead : Option String
deriving Repr

/-- The platform-independent tail of guess_python (src/lib.rs lines 86 to 96):
try python3, then python with a version-marker check, else fail. -/
def guess_python_common (w : ProbeWorld) : Except Error String :=
  if w.python3RunOk then Except.ok "python3"
  else
    match w.pythonRead with
    | some out =>
      if strContains out "Python 3." then Except.ok "python"
      else Except.error (Error.PythonNotDetected pyNotFoundMsg)
    | none => Except.error (Error.PythonNotDetected pyNotFoundMsg)

/-- guess_python from src/lib.rs lines 72 to 97; the windows flag selects the
cfg(windows) block that first probes python3.exe and python.exe. -/
def guess_python (windows : Bool) (w : ProbeWorld) : Except Error String :=
  if windows then
    if w.python3ExeRunOk then Except.ok "python3.exe"
    else
      match w.pythonExeRead with
      | some out =>
        if strContains out "Python 3." then Except.ok "python.exe"
        else guess_python_common w
      | none => guess_python_common w
  else guess_python_common w

/-- Modelled from the spec: the embedded minimal venv bootstrap script
(src/microvenv.py, pulled in by an include of the file text, which is not present
under src/) is treated as an external tool whose content is irrelevant here; only its identity as a command
argument matters to the claims. -/
def MICROVENV_CODE : String := "microvenv-bootstrap-script-text"

/-- Observable events of one create_venv invocation, in program order. -/
inductive Event where
  | createDir (p : RPath)
  | lockFileCreate (p : RPath)
  | lockAcquire
  | existsCheck (p : RPath) (found : Bool)
  | probe
  | runCmd (program : String) (args : List String)
  | lockRelease
deriving DecidableEq, BEq, Repr

/-- Result of a fallible Rust call: success, a typed Error return, or a panic
(the unwrap calls in create_venv abort instead of returning an Error). -/
inductive Outcome (α : Type) where
  | ok (a : α)
  | err (e : Error)
  | panicked (msg : String)
deriving DecidableEq, BEq, Repr

def Outcome.isPanic : Outcome α → Bool
  | Outcome.panicked _ => true
  | _ => false

def Outcome.isErr : Outcome α → Bool
  | Outcome.err _ => true
  | _ => false

/-- The panic message of an unwrap on an Err value. -/
def unwrapPanicMsg : String := "called Result::unwrap on an Err value"

/-- The world a create_venv invocation runs against: whether directory creation
succeeds (some message = the xshell error text on failure), whether creating and
write-locking the lock file succeed, which files exist, the interpreter probe
results, and whether the bootstrap and ensurepip commands succeed. -/
structure ShellWorld where
  createDirErr : Option String
  lockFileCreateOk : Bool
  lockAcquireOk : Bool
  fileExists : RPath → Bool
  probe : ProbeWorld
  bootstrapErr : Option String
  ensurepipErr : Option String

/-- The lock file location path.join("xshell-venv.lock") in create_venv. -/
def lockPath (path : RPath) : RPath := path.join "xshell-venv.lock"

/-- The interpreter location path.join("bin").join("python") checked by both
cfg variants of create_venv (src/lib.rs lines 107 and 132). -/
def pybinPath (path : RPath) : RPath := (path.join "bin").join "python"

/-- create_venv for cfg(not(windows)) (src/lib.rs lines 100 to 120): create the
directory, create and exclusively lock the lock file (both via unwrap, so a
failure panics), check for bin/python, and when absent locate an interpreter,
run the embedded bootstrap script, then run ensurepip; the lock guard is
released on every exit path after acquisition, by Rust drop semantics. -/
def create_venv_unix (w : ShellWorld) (path : RPath) : List Event × Outcome Unit :=
  match w.createDirErr with
  | some e => ([Event.createDir path], Outcome.err (Error.Xshell e))
  | none =>
    if w.lockFileCreateOk then
      if w.lockAcquireOk then
        let found := w.fileExists (pybinPath path)
        if found then
          ([Event.createDir path, Event.lockFileCreate (lockPath path),
            Event.lockAcquire, Event.existsCheck (pybinPath path) found,
            Event.lockRelease], Outcome.ok ())
        else
          match guess_python false w.probe with
          | Except.error e =>
            ([Event.createDir path, Event.lockFileCreate (lockPath path),
              Event.lockAcquire, Event.existsCheck (pybinPath path) found,
              Event.probe, Event.lockRelease], Outcome.err e)
          | Except.ok python =>
            match w.bootstrapErr with
            | some e =>
              ([Event.createDir path, Event.lockFileCreate (lockPath path),
                Event.lockAcquire, Event.existsCheck (pybinPath path) found,
                Event.probe,
                Event.runCmd python ["-c", MICROVENV_CODE, path.display],
                Event.lockRelease], Outcome.err (Error.Xshell e))
            | none =>
              match w.ensurepipErr with
              | some e =>
                ([Event.createDir path, Event.lockFileCreate (lockPath path),
                  Event.lockAcquire, Event.existsCheck (pybinPath path) found,
                  Event.probe,
                  Event.runCmd python ["-c", MICROVENV_CODE, path.display],
                  Event.runCmd (path.display ++ "/bin/python") ["-m", "ensurepip"],
                  Event.lockRelease], Outcome.err (Error.Xshell e))
              | none =>
                ([Event.createDir path, Event.lockFileCreate (lockPath path),
                  Event.lockAcquire, Event.existsCheck (pybinPath path) found,
                  Event.probe,
                  Event.runCmd python ["-c", MICROVENV_CODE, path.display],
                  Event.runCmd (path.display ++ "/bin/python") ["-m", "ensurepip"],
                  Event.lockRelease], Outcome.ok ())
      else
        ([Event.createDir path, Event.lockFileCreate (lockPath path)],
         Outcome.panicked unwrapPanicMsg)
    else
      ([Event.createDir path, Event.lockFileCreate (lockPath path)],
       Outcome.panicked unwrapPanicMsg)

/-- create_venv for cfg(windows) (src/lib.rs lines 125 to 142): identical until
the existence check (same bin/python location), then bootstraps with the
interpreter venv module and runs no ensurepip. -/
def create_venv_windows (w : ShellWorld) (path : RPath) : List Event × Outcome Unit :=
  match w.createDirErr with
  | some e => ([Event.createDir path], Outcome.err (Error.Xshell e))
  | none =>
    if w.lockFileCreateOk then
      if w.lockAcquireOk then
        let found := w.fileExists (pybinPath path)
        if found then
          ([Event.createDir path, Event.lockFileCreate (lockPath path),
            Event.lockAcquire, Event.existsCheck (pybinPath path) found,
            Event.lockRelease], Outcome.ok ())
        else
          match guess_python true w.probe with
          | Except.error e =>
            ([Event.createDir path, Event.lockFileCreate (lockPath path),
              Event.lockAcquire, Event.existsCheck (pybinPath path) found,
              Event.probe, Event.lockRelease], Outcome.err e)
          | Except.ok python =>
            match w.bootstrapErr with
            | some e =>
              ([Event.createDir path, Event.lockFileCreate (lockPath path),
                Event.lockAcquire, Event.existsCheck (pybinPath path) found,
                Event.probe,
                Event.runCmd python ["-m", "venv", path.display],
                Event.lockRelease], Outcome.err (Error.Xshell e))
            | none =>
              ([Event.createDir path, Event.lockFileCreate (lockPath path),
                Event.lockAcquire, Event.existsCheck (pybinPath path) found,
                Event.probe,
                Event.runCmd python ["-m", "venv", path.display],
                Event.lockRelease], Outcome.ok ())
      else
        ([Event.createDir path, Event.lockFileCreate (lockPath path)],
         Outcome.panicked unwrapPanicMsg)
    else
      ([Event.createDir path, Event.lockFileCreate (lockPath path)],
       Outcome.panicked unwrapPanicMsg)

def isAcquire : Event → Bool
  | Event.lockAcquire => true
  | _ => false

def isRelease : Event → Bool
  | Event.lockRelease => true
  | _ => false

def isCheck : Event → Bool
  | Event.existsCheck _ _ => true
  | _ => false

def isProbe : Event → Bool
  | Event.probe => true
  | _ => false

def isRun : Event → Bool
  | Event.runCmd _ _ => true
  | _ => false

def hasEvent (p : Event → Bool) : List Event → Bool
  | [] => false
  | e :: rest => p e || hasEvent p rest

def lastEvent : List Event → Option Event
  | [] => none
  | [e] => some e
  | _ :: e :: rest => lastEvent (e :: rest)

/-- True when no existence check occurs before the lock is acquired. -/
def locksBeforeChecks : List Event → Bool
  | [] => true
  | e :: rest =>
    if isAcquire e then true
    else if isCheck e then false
    else locksBeforeChecks rest

/-- True when a trace that acquired the lock ends with the lock release. -/
def releasedProperly (tr : List Event) : Bool :=
  !(hasEvent isAcquire tr) ||
    (match lastEvent tr with
     | some Event.lockRelease => true
     | _ => false)

/-- True when any bootstrap work (interpreter probe, bootstrap command, or
package-installer command) appears in the trace. -/
def hasBootstrapWork (tr : List Event) : Bool :=
  hasEvent (fun e => isProbe e || isRun e) tr

def countEvents (p : Event → Bool) : List Event → Nat
  | [] => 0
  | e :: rest => (if p e then 1 else 0) + countEvents p rest

/-- True when every existence check in the trace is on the given path. -/
def checksOnly (target : RPath) : List Event → Bool
  | [] => true
  | Event.existsCheck r _ :: rest => decide (r = target) && checksOnly target rest
  | _ :: rest => checksOnly target rest

/-- True when the lock-handling phase of create_venv succeeds in this world:
directory creation, lock-file creation, and lock acquisition. -/
def lockPhaseOk (w : ShellWorld) : Bool :=
  w.createDirErr.isNone && w.lockFileCreateOk && w.lockAcquireOk

/-- C1: in every create_venv run (both cfg variants), the exclusive lock on
<path>/xshell-venv.lock is acquired before the interpreter-binary existence
check, the lock is acquired exactly when the lock phase succeeds (in particular
also when the environment already exists and no bootstrap runs), and every
trace that acquired the lock ends with the lock release, on every exit path. -/
theorem C1_lock_before_check_and_released (w : ShellWorld) (path : RPath) :
    (locksBeforeChecks (create_venv_unix w path).1 = true
      ∧ releasedProperly (create_venv_unix w path).1 = true
      ∧ hasEvent isAcquire (create_venv_unix w path).1 = lockPhaseOk w)
    ∧ (locksBeforeChecks (create_venv_windows w path).1 = true
      ∧ releasedProperly (create_venv_windows w path).1 = true
      ∧ hasEvent isAcquire (create_venv_windows w path).1 = lockPhaseOk w) := by
  rcases w with ⟨cd, lf, la, fe, pr, be, ee⟩
  rcases hf : fe (pybinPath path) <;>
  rcases cd with _ | m <;>
  rcases lf <;> rcases la <;>
  rcases hg : guess_python false pr with e | py <;>
  rcases hgw : guess_python true pr with ew | pyw <;>
  rcases be with _ | mb <;>
  rcases ee with _ | me <;>
  simp [create_venv_unix, create_venv_windows, lockPhaseOk, hf, hg, hgw,
        locksBeforeChecks, releasedProperly, hasEvent, lastEvent,
        isAcquire, isCheck, isProbe, isRun]

/-- C2: create_venv is idempotent with respect to bootstrap work, and the
existence of the interpreter binary at <path>/bin/python is the sole signal for
(re)building: on both cfg variants, bootstrap work (interpreter probe, bootstrap
command, package-installer command) occurs in the trace exactly when the lock
phase succeeds and that binary does not exist; in particular, when it exists no
probe, bootstrap, or package-installer invocation happens. -/
theorem C2_idempotent_sole_signal (w : ShellWorld) (path : RPath) :
    hasBootstrapWork (create_venv_unix w path).1
      = (lockPhaseOk w && !(w.fileExists (pybinPath path)))
    ∧ hasBootstrapWork (create_venv_windows w path).1
      = (lockPhaseOk w && !(w.fileExists (pybinPath path))) := by
  rcases w with ⟨cd, lf, la, fe, pr, be, ee⟩
  rcases hf : fe (pybinPath path) <;>
  rcases cd with _ | m <;>
  rcases lf <;> rcases la <;>
  rcases hg : guess_python false pr with e | py <;>
  rcases hgw : guess_python true pr with ew | pyw <;>
  rcases be with _ | mb <;>
  rcases ee with _ | me <;>
  simp [create_venv_unix, create_venv_windows, lockPhaseOk, hf, hg, hgw,
        hasBootstrapWork, hasEvent, isProbe, isRun]

/-- The platform-conventional Windows interpreter location Scripts/python.exe,
which create_venv never consults. -/
def scriptsPath (path : RPath) : RPath := (path.join "Scripts").join "python.exe"

/-- C9: on both cfg variants, every existence check in a create_venv trace is on
exactly <path>/bin/python; a check occurs exactly when the lock phase succeeds;
and the checked location differs from the Windows-conventional
<path>/Scripts/python.exe, which is never consulted. -/
theorem C9_exists_check_is_bin_python (w : ShellWorld) (path : RPath) :
    checksOnly (pybinPath path) (create_venv_unix w path).1 = true
    ∧ checksOnly (pybinPath path) (create_venv_windows w path).1 = true
    ∧ hasEvent isCheck (create_venv_unix w path).1 = lockPhaseOk w
    ∧ hasEvent isCheck (create_venv_windows w path).1 = lockPhaseOk w
    ∧ pybinPath path = ⟨path.absolute, path.components ++ ["bin", "python"]⟩
    ∧ decide (pybinPath path = scriptsPath path) = false := by
  have hne : pybinPath path ≠ scriptsPath path := by
    simp only [pybinPath, scriptsPath, RPath.join]
    intro h
    have h2 := congrArg RPath.components h
    simp only [List.append_assoc] at h2
    have h3 := List.append_cancel_left h2
    simp at h3
  refine ⟨?_, ?_, ?_, ?_, by simp [pybinPath, RPath.join], by simp [hne]⟩ <;>
  · rcases w with ⟨cd, lf, la, fe, pr, be, ee⟩
    rcases hf : fe (pybinPath path) <;>
    rcases cd with _ | m <;>
    rcases lf <;> rcases la <;>
    rcases hg : guess_python false pr with e | py <;>
    rcases hgw : guess_python true pr with ew | pyw <;>
    rcases be with _ | mb <;>
    rcases ee with _ | me <;>
    simp [create_venv_unix, create_venv_windows, lockPhaseOk, hf, hg, hgw,
          checksOnly, hasEvent, isCheck]

/-- The shell environment-variable state: variable name to optional value. -/
def EnvFun : Type := String → Option String

def envSet (e : EnvFun) (k v : String) : EnvFun :=
  fun q => if q = k then some v else e q

def envUnset (e : EnvFun) (k : String) : EnvFun :=
  fun q => if q = k then none else e q

/-- Modelled from the spec: the scoped environment-variable override primitive
(the push_env operation of the external shell library) returns a token that,
when released, restores the previous value or previous absence of the variable;
the token therefore records the key and its prior value. -/
structure PushEnvTok where
  key : String
  oldValue : Option String
deriving DecidableEq, BEq, Repr

/-- Apply an override and produce its restore token. -/
def push_env (e : EnvFun) (k v : String) : EnvFun × PushEnvTok :=
  (envSet e k v, ⟨k, e k⟩)

/-- Release one token: restore the prior value, or the prior absence. -/
def releaseTok (t : PushEnvTok) (e : EnvFun) : EnvFun :=
  match t.oldValue with
  | some v => envSet e t.key v
  | none => envUnset e t.key

/-- Destruction of the handle: the token vector field drops its elements
front to back (Rust Vec drop order), releasing each token in turn; so the
tokens are released in their list order, which is their application order. -/
def dropTokens (toks : List PushEnvTok) (e : EnvFun) : EnvFun :=
  toks.foldl (fun acc t => releaseTok t acc) e

/-- The keys in the order their overrides are reverted at handle destruction. -/
def releaseOrder (toks : List PushEnvTok) : List String :=
  toks.map PushEnvTok.key

/-- The PATH fallback value in src/lib.rs line 247. -/
def defaultPath : String := "/bin:/usr/bin"

/-- The override-application block of VirtualEnv::with_path (src/lib.rs lines
247 to 252): read the process PATH (falling back to the minimal list), push
VIRTUAL_ENV as the display of the given path, then push the prefixed PATH;
returns the tokens in application order together with the shell environment. -/
def applyOverrides (procPATH : Option String) (shellEnv : EnvFun) (venv_dir : RPath) :
    List PushEnvTok × EnvFun :=
  let path := procPATH.getD defaultPath
  let path2 := venv_dir.display ++ "/bin:" ++ path
  let r1 := push_env shellEnv "VIRTUAL_ENV" venv_dir.display
  let r2 := push_env r1.1 "PATH" path2
  ([r1.2, r2.2], r2.1)

/-- VirtualEnv::with_path (src/lib.rs lines 244 to 255): run create_venv first;
on error or panic nothing is pushed and the shell environment is returned
unchanged; on success the two overrides are applied. The cfg(not(windows))
builder is used. -/
def with_path_unix (w : ShellWorld) (procPATH : Option String) (shellEnv : EnvFun)
    (venv_dir : RPath) : Outcome (List PushEnvTok) × EnvFun :=
  match (create_venv_unix w venv_dir).2 with
  | Outcome.err e => (Outcome.err e, shellEnv)
  | Outcome.panicked m => (Outcome.panicked m, shellEnv)
  | Outcome.ok _ =>
    let r := applyOverrides procPATH shellEnv venv_dir
    (Outcome.ok r.1, r.2)

/-- Releasing a recorded token restores the prior value or prior absence. -/
theorem releaseTok_eval (k : String) (ov : Option String) (e : EnvFun) (q : String) :
    releaseTok ⟨k, ov⟩ e q = if q = k then ov else e q := by
  cases ov <;> simp [releaseTok, envSet, envUnset]

/-- C3 amended: each override token records the exact prior value (or prior
absence) of its variable; destroying the handle releases the tokens in
application order (the token vector drops front to back), which still restores
the shell environment exactly because the two overridden variables differ; and
two nested handles, destroyed innermost first, also restore exactly. -/
theorem C3_amended_exact_restoration (p1 p2 : Option String) (env0 : EnvFun)
    (d1 d2 : RPath) (k : String) :
    (applyOverrides p1 env0 d1).1.map PushEnvTok.oldValue
        = [env0 "VIRTUAL_ENV", env0 "PATH"]
    ∧ dropTokens (applyOverrides p1 env0 d1).1 (applyOverrides p1 env0 d1).2 k
        = env0 k
    ∧ dropTokens (applyOverrides p1 env0 d1).1
        (dropTokens (applyOverrides p2 (applyOverrides p1 env0 d1).2 d2).1
          (applyOverrides p2 (applyOverrides p1 env0 d1).2 d2).2) k
        = env0 k := by
  refine ⟨?_, ?_, ?_⟩ <;>
    simp only [applyOverrides, push_env, dropTokens, List.foldl, List.map] <;>
    simp [releaseTok_eval, envSet] <;>
    by_cases h1 : k = "PATH" <;> by_cases h2 : k = "VIRTUAL_ENV" <;>
    simp_all

def envEmpty : EnvFun := fun _ => none

/-- Probe world in which no Python is found by any probe. -/
def probeFailAll : ProbeWorld := ⟨false, none, false, none⟩

/-- Probe world in which the python3 probe succeeds. -/
def probeOk3 : ProbeWorld := ⟨false, none, true, none⟩

/-- A world where everything succeeds and the interpreter binary already exists. -/
def w_ok : ShellWorld := ⟨none, true, true, fun _ => true, probeOk3, none, none⟩

/-- A world where the interpreter binary is absent and no Python probe succeeds. -/
def w_guessfail : ShellWorld := ⟨none, true, true, fun _ => false, probeFailAll, none, none⟩

/-- A world where creating the lock file fails. -/
def w_lockfail : ShellWorld := ⟨none, false, true, fun _ => false, probeOk3, none, none⟩

/-- A world where directory creation fails with a permissions error. -/
def w_cdfail : ShellWorld :=
  ⟨some "failed to create directory: permission denied", true, true,
   fun _ => false, probeOk3, none, none⟩

def p0 : RPath := ⟨true, ["work", "venv-py3"]⟩

def relPath : RPath := ⟨false, ["relvenv"]⟩

/-- C3 counterexample: the handle reverts its overrides in application order
(the token vector drops front to back), not in strict reverse order: the keys
are applied in the order VIRTUAL_ENV, PATH and released in that same order,
which differs from the reverse order the claim requires. -/
theorem C3_counterexample_release_order :
    releaseOrder (applyOverrides none envEmpty p0).1 = ["VIRTUAL_ENV", "PATH"]
    ∧ List.reverse (releaseOrder (applyOverrides none envEmpty p0).1)
        = ["PATH", "VIRTUAL_ENV"]
    ∧ releaseOrder (applyOverrides none envEmpty p0).1
        ≠ List.reverse (releaseOrder (applyOverrides none envEmpty p0).1) := by
  refine ⟨rfl, rfl, ?_⟩
  decide

/-- C4: when the environment builder returns an error, with_path returns that
same error and the shell environment is unchanged: no override is applied. -/
theorem C4_no_overrides_on_build_error (w : ShellWorld) (procPATH : Option String)
    (shellEnv : EnvFun) (d : RPath) (e : Error)
    (h : (create_venv_unix w d).2 = Outcome.err e) :
    with_path_unix w procPATH shellEnv d = (Outcome.err e, shellEnv) := by
  simp [with_path_unix, h]

theorem C4_witness :
    with_path_unix w_guessfail none envEmpty p0
      = (Outcome.err (Error.PythonNotDetected pyNotFoundMsg), envEmpty) :=
  C4_no_overrides_on_build_error w_guessfail none envEmpty p0
    (Error.PythonNotDetected pyNotFoundMsg) rfl

/-- C7 amended: on successful build, with_path applies exactly two overrides:
VIRTUAL_ENV is set to the display form of the supplied path exactly as given
(it is not made absolute), and PATH is set to the bin subdirectory of the path
joined with a colon onto the process PATH value, defaulting to the minimal
list /bin:/usr/bin when PATH was unset; no other variable changes. -/
theorem C7_amended_overrides (w : ShellWorld) (procPATH : Option String)
    (shellEnv : EnvFun) (d : RPath) (k : String)
    (h : (create_venv_unix w d).2 = Outcome.ok ()) :
    (with_path_unix w procPATH shellEnv d).1
        = Outcome.ok (applyOverrides procPATH shellEnv d).1
    ∧ (with_path_unix w procPATH shellEnv d).2 "VIRTUAL_ENV" = some d.display
    ∧ (with_path_unix w procPATH shellEnv d).2 "PATH"
        = some (d.display ++ "/bin:" ++ procPATH.getD defaultPath)
    ∧ (k ≠ "VIRTUAL_ENV" → k ≠ "PATH" →
        (with_path_unix w procPATH shellEnv d).2 k = shellEnv k) := by
  refine ⟨by simp [with_path_unix, h], ?_, ?_, ?_⟩
  · simp [with_path_unix, h, applyOverrides, push_env, envSet]
  · simp [with_path_unix, h, applyOverrides, push_env, envSet]
  · intro h1 h2
    simp [with_path_unix, h, applyOverrides, push_env, envSet, h1, h2]

theorem C7_witness :
    (with_path_unix w_ok (some "/usr/bin") envEmpty p0).2 "VIRTUAL_ENV"
        = some "/work/venv-py3"
    ∧ (with_path_unix w_ok (some "/usr/bin") envEmpty p0).2 "PATH"
        = some "/work/venv-py3/bin:/usr/bin"
    ∧ (with_path_unix w_ok (some "/usr/bin") envEmpty p0).2 "HOME"
        = envEmpty "HOME" := by
  have h := C7_amended_overrides w_ok (some "/usr/bin") envEmpty p0 "HOME" rfl
  exact ⟨h.2.1, h.2.2.1, h.2.2.2 (by decide) (by decide)⟩

/-- True when a path string is absolute in the POSIX sense. -/
def isAbsoluteString (s : String) : Bool := s.toList.head? == some '/'

/-- C7 counterexample: with a relative environment path, activation sets
VIRTUAL_ENV to the relative text of that path, not to its absolute form. -/
theorem C7_counterexample_not_absolutized :
    (with_path_unix w_ok none envEmpty relPath).2 "VIRTUAL_ENV" = some "relvenv"
    ∧ isAbsoluteString "relvenv" = false := by
  exact ⟨rfl, rfl⟩

def exceptIsOk : Except Error String → Bool
  | Except.ok _ => true
  | Except.error _ => false

theorem C5_amended_typed_errors_except_lock_panics (w : ShellWorld) (path : RPath)
    (m : String) :
    ((create_venv_unix w path).2.isPanic
        = (w.createDirErr.isNone && (!w.lockFileCreateOk || !w.lockAcquireOk)))
    ∧ ((create_venv_windows w path).2.isPanic
        = (w.createDirErr.isNone && (!w.lockFileCreateOk || !w.lockAcquireOk)))
    ∧ (w.createDirErr = some m →
        (create_venv_unix w path).2 = Outcome.err (Error.Xshell m)
        ∧ (Error.Xshell m).display = m)
    ∧ (lockPhaseOk w = true → w.fileExists (pybinPath path) = false →
        guess_python false w.probe
            = Except.error (Error.PythonNotDetected pyNotFoundMsg) →
        (create_venv_unix w path).2
            = Outcome.err (Error.PythonNotDetected pyNotFoundMsg)
        ∧ (Error.PythonNotDetected pyNotFoundMsg).display = pyNotFoundMsg)
    ∧ (lockPhaseOk w = true → w.fileExists (pybinPath path) = false →
        exceptIsOk (guess_python false w.probe) = true → w.bootstrapErr = some m →
        (create_venv_unix w path).2 = Outcome.err (Error.Xshell m)
        ∧ (Error.Xshell m).display = m)
    ∧ countEvents isProbe (create_venv_unix w path).1 ≤ 1
    ∧ countEvents isRun (create_venv_unix w path).1 ≤ 2 := by
  rcases w with ⟨cd, lf, la, fe, pr, be, ee⟩
  rcases hf : fe (pybinPath path) <;>
  rcases cd with _ | mm <;>
  rcases lf <;> rcases la <;>
  rcases hg : guess_python false pr with e | py <;>
  rcases hgw : guess_python true pr with ew | pyw <;>
  rcases be with _ | mb <;>
  rcases ee with _ | me <;>
  simp_all [create_venv_unix, create_venv_windows, lockPhaseOk, countEvents,
            isProbe, isRun, Outcome.isPanic, Error.display, exceptIsOk]

theorem C5_witness :
    (create_venv_unix w_cdfail p0).2
        = Outcome.err (Error.Xshell "failed to create directory: permission denied")
    ∧ (Error.Xshell "failed to create directory: permission denied").display
        = "failed to create directory: permission denied" :=
  (C5_amended_typed_errors_except_lock_panics w_cdfail p0
      "failed to create directory: permission denied").2.2.1 rfl

/-- C5 counterexample: when creating the lock file fails, create_venv panics
(the unwrap in src/lib.rs line 104) instead of surfacing a typed error value. -/
theorem C5_counterexample_lock_failure_panics :
    (create_venv_unix w_lockfail p0).2 = Outcome.panicked unwrapPanicMsg
    ∧ (create_venv_unix w_lockfail p0).2.isErr = false := ⟨rfl, rfl⟩

/-- Environment-variable snapshot read by find_directory. -/
structure ResolverEnv where
  cargoTargetDir : Option String
  outDir : Option String
  cargoManifestDir : Option String
deriving Repr

/-- find_directory from src/lib.rs lines 144 to 188: first matching signal wins
(CARGO_TARGET_DIR; OUT_DIR three parent levels up, falling through when an
ancestor is missing; CARGO_MANIFEST_DIR with target appended; the temporary
directory), then the fixed venv-<name> subdirectory is appended. -/
def find_directory (re : ResolverEnv) (tmp : RPath) (name : String) : RPath :=
  let venv_dir : RPath :=
    match re.cargoTargetDir with
    | some target_dir => pathFromString target_dir
    | none =>
      match re.outDir with
      | some out_dir =>
        match ((pathFromString out_dir).parent.bind RPath.parent).bind RPath.parent with
        | some p => p
        | none =>
          match re.cargoManifestDir with
          | some manifest_dir => (pathFromString manifest_dir).join "target"
          | none => tmp
      | none =>
        match re.cargoManifestDir with
        | some manifest_dir => (pathFromString manifest_dir).join "target"
        | none => tmp
  venv_dir.join ("venv-" ++ name)

/-- Ascend exactly n parent levels, none when any ancestor is unavailable. -/
def parentN : Nat → RPath → Option RPath
  | 0, p => some p
  | n + 1, p => p.parent.bind (parentN n)

/-- The resolver as the claim words it, for the refinement proof: step 4 is the
temporary directory; step 3 uses the manifest directory with target appended;
step 2 ascends exactly three parent levels from the build-output directory,
falling through if any ancestor is unavailable; step 1 uses the target-directory
override; the fixed subdirectory venv-<name> is appended in every case. -/
def find_directory_spec (re : ResolverEnv) (tmp : RPath) (name : String) : RPath :=
  let step4 : RPath := tmp
  let step3 : RPath :=
    match re.cargoManifestDir with
    | some md => (pathFromString md).join "target"
    | none => step4
  let step2 : RPath :=
    match re.outDir with
    | some od =>
      match parentN 3 (pathFromString od) with
      | some p => p
      | none => step3
    | none => step3
  let base : RPath :=
    match re.cargoTargetDir with
    | some td => pathFromString td
    | none => step2
  base.join ("venv-" ++ name)

/-- C6: the environment-directory resolver computes exactly the path described
by the claim: the first matching signal in the fixed order target-dir override,
build-output directory three levels up (falling through when an ancestor is
unavailable), manifest directory with target appended, temporary directory,
with the fixed subdirectory venv-<name> appended in every case. -/
theorem C6_resolver_matches_spec (re : ResolverEnv) (tmp : RPath) (name : String) :
    find_directory re tmp name = find_directory_spec re tmp name := by
  have h3 : ∀ p : RPath,
      parentN 3 p = (p.parent.bind RPath.parent).bind RPath.parent := by
    intro p
    cases hp : p.parent with
    | none => simp [parentN, hp]
    | some q =>
      cases hq : q.parent with
      | none => simp [parentN, hp, hq]
      | some r => cases hr : r.parent <;> simp [parentN, hp, hq, hr]
  rcases re with ⟨ctd, od, md⟩
  rcases ctd <;> rcases od <;> rcases md <;>
    simp [find_directory, find_directory_spec, h3]

/-- A prepared command of the external shell library: program, arguments,
optional standard-input payload, and the variables removed from the spawned
process environment. -/
structure Cmd where
  program : String
  args : List String
  stdinData : Option String
  envRemoved : List String
deriving DecidableEq, BEq, Repr

/-- The stdin method of the external command builder. -/
def Cmd.stdin (c : Cmd) (data : String) : Cmd :=
  ⟨c.program, c.args, some data, c.envRemoved⟩

/-- The local command wrapper of src/lib.rs lines 37 to 41: build the command
and explicitly remove PYTHONHOME from the spawned process environment,
unconditionally on every platform. -/
def xvCmd (program : String) (args : List String) : Cmd :=
  ⟨program, args, none, ["PYTHONHOME"]⟩

/-- VirtualEnv::run (src/lib.rs lines 328 to 332): the command named python
with the code fed on standard input. -/
def runPyCmd (code : String) : Cmd := (xvCmd "python" []).stdin code

/-- VirtualEnv::run_module (src/lib.rs lines 352 to 355). -/
def run_module_cmd (module : String) (args : List String) : Cmd :=
  xvCmd "python" (["-m", module] ++ args)

/-- VirtualEnv::pip_install (src/lib.rs lines 277 to 280). -/
def pip_install_cmd (package : String) : Cmd :=
  xvCmd "pip3" ["install", package]

/-- VirtualEnv::pip_upgrade (src/lib.rs lines 306 to 309). -/
def pip_upgrade_cmd (package : String) : Cmd :=
  xvCmd "pip3" ["install", "--upgrade", package]

/-- C8: every command façade invocation (run, run_module, pip_install,
pip_upgrade) removes PYTHONHOME from the spawned process environment; the
removal comes from the shared wrapper and holds regardless of platform. -/
theorem C8_pythonhome_removed (code module : String) (args : List String)
    (package : String) :
    "PYTHONHOME" ∈ (runPyCmd code).envRemoved
    ∧ "PYTHONHOME" ∈ (run_module_cmd module args).envRemoved
    ∧ "PYTHONHOME" ∈ (pip_install_cmd package).envRemoved
    ∧ "PYTHONHOME" ∈ (pip_upgrade_cmd package).envRemoved := by
  refine ⟨?_, ?_, ?_, ?_⟩ <;>
    simp [runPyCmd, run_module_cmd, pip_install_cmd, pip_upgrade_cmd, xvCmd,
          Cmd.stdin]

/-- True when a program name contains no path separator, so it is resolved
through PATH rather than invoked by an explicit filesystem path. -/
def isBareName (s : String) : Bool :=
  !(s.toList.any (fun c => c == '/' || c == '\\'))

/-- C10: run and run_module spawn the bare command name python, and pip_install
and pip_upgrade spawn the bare command name pip3; neither name contains a path
separator, so both resolve through the overridden PATH. -/
theorem C10_bare_command_names (code module : String) (args : List String)
    (package : String) :
    (runPyCmd code).program = "python"
    ∧ (run_module_cmd module args).program = "python"
    ∧ (pip_install_cmd package).program = "pip3"
    ∧ (pip_upgrade_cmd package).program = "pip3"
    ∧ isBareName "python" = true
    ∧ isBareName "pip3" = true := by
  exact ⟨rfl, rfl, rfl, rfl, by decide, by decide⟩
